import Mathlib

/-!
Shallow embedding of the MERN notes application backend
(controllers/authController.js, controllers/noteController.js,
middleware/auth.js, models/User.js, utils/tokenUtils.js).

Modelling conventions:

* Byte strings that flow through the crypto layer (JWTs, SHA-256 digests,
  bcrypt hashes) are modelled symbolically by the inductive type `Data`
  (a Dolev-Yao style term algebra).  `crypto.createHash(sha256)` is the
  constructor `Data.sha256`; since constructors are injective this models
  SHA-256 as a perfect (collision-free) hash.  `jwt.sign` with the access
  (resp. refresh) secret is the constructor `Data.jwtAccess`
  (resp. `Data.jwtRefresh`), carrying the `userId` payload and the `iat`
  issue time; `jwt.verify` succeeds exactly on terms built with the matching
  constructor (signature checking; JWT expiry is not modelled, there is no
  clock inside the token model).  `bcrypt.hash` is the constructor
  `Data.bcrypt` (deterministic symbolic hash, the salt is not modelled).
* MongoDB collections are lists of documents; `findOne` is `List.find?`,
  `document.save()` replaces the document with the same `_id`,
  `findOneAndDelete` is `List.eraseP`, `deleteMany` is a filter,
  `countDocuments` is a length, and the `aggregate` pipelines of
  `getNotesStats` are counting operations.
* Express handlers become pure functions from the database and the request
  data to a result record holding the HTTP status, the new database state,
  and the response payload / cookies.
* A `req.body` string field that the code tests for truthiness is modelled
  as `String`, with the empty string standing for both `undefined` and
  the empty (falsy) string.
-/

set_option autoImplicit false

namespace NotesApp

/-- Symbolic byte strings: literal strings, signed JWTs (payload `userId`,
issue time `iat`), SHA-256 digests, and bcrypt password hashes. -/
inductive Data : Type where
  | str (s : String)
  | jwtAccess (userId : Nat) (iat : Nat)
  | jwtRefresh (userId : Nat) (iat : Nat)
  | sha256 (d : Data)
  | bcrypt (pw : String)
deriving DecidableEq, Repr

/-! tokenUtils.js -/

/-- tokenUtils.js `generateAccessToken`: sign `\x7b userId \x7d` with the access
secret (the `iat` argument models the signing time that `jwt.sign` embeds). -/
def generateAccessToken (userId : Nat) (iat : Nat) : Data :=
  Data.jwtAccess userId iat

/-- tokenUtils.js `generateRefreshToken`: sign with the refresh secret. -/
def generateRefreshToken (userId : Nat) (iat : Nat) : Data :=
  Data.jwtRefresh userId iat

/-- tokenUtils.js `generateTokens`: both tokens for one user. -/
def generateTokens (userId : Nat) (iat : Nat) : Data × Data :=
  (generateAccessToken userId iat, generateRefreshToken userId iat)

/-- tokenUtils.js `verifyAccessToken`: `jwt.verify` with the access secret;
returns the decoded `userId`, failing (`none`) on every other term. -/
def verifyAccessToken : Data → Option Nat
  | Data.jwtAccess userId _ => some userId
  | _ => none

/-- tokenUtils.js `verifyRefreshToken`: `jwt.verify` with the refresh secret. -/
def verifyRefreshToken : Data → Option Nat
  | Data.jwtRefresh userId _ => some userId
  | _ => none

/-- tokenUtils.js `hashToken`: SHA-256 hex digest of a token. -/
def hashToken (token : Data) : Data :=
  Data.sha256 token

/-- One `res.cookie` record: the value (`none` models the cleared cookie
written with an immediate expiry) and the `httpOnly` flag. -/
structure SetCookie where
  value : Option Data
  httpOnly : Bool
deriving DecidableEq, Repr

/-- tokenUtils.js `setAuthCookies`: httpOnly access and refresh cookies. -/
def setAuthCookies (accessToken refreshTok : Data) : SetCookie × SetCookie :=
  ({ value := some accessToken, httpOnly := true },
   { value := some refreshTok, httpOnly := true })

/-- tokenUtils.js `clearAuthCookies`: both cookies overwritten as expired. -/
def clearAuthCookies : SetCookie × SetCookie :=
  ({ value := none, httpOnly := true }, { value := none, httpOnly := true })

/-! models/User.js -/

/-- models/User.js `RESET_TOKEN_EXPIRY_MS = 10 * 60 * 1000`. -/
def RESET_TOKEN_EXPIRY_MS : Nat := 10 * 60 * 1000

/-- A document of the `users` collection.  The fields `passwordChangeToken`,
`passwordChangeExpire` and `pendingPassword` of the schema are omitted: no
modelled operation reads or writes them.  `password` always holds the bcrypt
hash written by the pre-save hook. -/
structure UserDoc where
  id : Nat
  name : String
  email : String
  password : Data
  resetPasswordToken : Option Data
  resetPasswordExpire : Option Nat
  refreshToken : Option Data
deriving DecidableEq, Repr

/-- models/User.js `comparePassword`: bcrypt comparison of a candidate with
the stored hash, in the symbolic bcrypt model. -/
def comparePassword (u : UserDoc) (candidatePassword : String) : Bool :=
  decide (u.password = Data.bcrypt candidatePassword)

/-- Mongoose `user.save()`: write the document back over the stored document
carrying the same `_id`. -/
def saveUser (db : List UserDoc) (u : UserDoc) : List UserDoc :=
  db.map (fun v => if v.id = u.id then u else v)

/-- models/User.js `getResetPasswordToken`, the random draw:
`Math.floor(100000 + Math.random() * 900000)` where `r` models the
`Math.random()` result, a rational in `[0, 1)`. -/
def resetCodeOfRand (r : ℚ) : Nat :=
  (Int.floor ((100000 : ℚ) + r * 900000)).toNat

/-- models/User.js `getResetPasswordToken`: draws a 6-digit code, stores its
SHA-256 digest in `resetPasswordToken`, sets `resetPasswordExpire` to
`Date.now() + RESET_TOKEN_EXPIRY_MS`, and returns the plaintext code. -/
def getResetPasswordToken (u : UserDoc) (r : ℚ) (now : Nat) : String × UserDoc :=
  let resetToken := toString (resetCodeOfRand r)
  (resetToken,
   { u with
     resetPasswordToken := some (Data.sha256 (Data.str resetToken)),
     resetPasswordExpire := some (now + RESET_TOKEN_EXPIRY_MS) })

/-! controllers/authController.js -/

/-- Result of an auth route: HTTP status, response message, the `users`
collection after the request, the cookies written by the response (if the
handler wrote any), and the `accessToken` field of the JSON body. -/
structure AuthResult where
  status : Nat
  message : String
  db : List UserDoc
  accessCookie : Option SetCookie
  refreshCookie : Option SetCookie
  accessTokenBody : Option Data
deriving DecidableEq, Repr

/-- An auth error response: `sendError(res, status, message)`, leaving the
database unchanged and writing no cookie. -/
def authError (db : List UserDoc) (status : Nat) (message : String) : AuthResult :=
  { status := status, message := message, db := db,
    accessCookie := none, refreshCookie := none, accessTokenBody := none }

/-- authController.js `signup` (POST /api/auth/signup).  `newId` models the
fresh `_id` MongoDB assigns to the created document and `iat` the signing
time of the issued JWTs. -/
def signup (db : List UserDoc) (name email password : String)
    (newId : Nat) (iat : Nat) : AuthResult :=
  if name = "" ∨ email = "" ∨ password = "" then
    authError db 400 "Please provide all required fields"
  else match db.find? (fun u => decide (u.email = email)) with
  | some _ => authError db 400 "Email already registered"
  | none =>
    if password.length < 8 then
      authError db 400 "Password must be at least 8 characters long"
    else
      let user : UserDoc :=
        { id := newId, name := name, email := email,
          password := Data.bcrypt password,
          resetPasswordToken := none, resetPasswordExpire := none,
          refreshToken := none }
      let tokens := generateTokens user.id iat
      let user' := { user with refreshToken := some (hashToken tokens.2) }
      let db' := saveUser (db ++ [user]) user'
      let cookies := setAuthCookies tokens.1 tokens.2
      { status := 201, message := "User registered successfully", db := db',
        accessCookie := some cookies.1, refreshCookie := some cookies.2,
        accessTokenBody := some tokens.1 }

/-- authController.js `login` (POST /api/auth/login). -/
def login (db : List UserDoc) (email password : String) (iat : Nat) : AuthResult :=
  if email = "" ∨ password = "" then
    authError db 400 "Please provide email and password"
  else match db.find? (fun u => decide (u.email = email)) with
  | none => authError db 401 "Invalid email or password"
  | some user =>
    if ¬ comparePassword user password then
      authError db 401 "Invalid email or password"
    else
      let tokens := generateTokens user.id iat
      let user' := { user with refreshToken := some (hashToken tokens.2) }
      let db' := saveUser db user'
      let cookies := setAuthCookies tokens.1 tokens.2
      { status := 200, message := "Login successful", db := db',
        accessCookie := some cookies.1, refreshCookie := some cookies.2,
        accessTokenBody := some tokens.1 }

/-- authController.js `logout` (POST /api/auth/logout): `$unset` the stored
refresh token hash of the authenticated user and clear both cookies. -/
def logout (db : List UserDoc) (userId : Nat) : AuthResult :=
  let db' := db.map (fun u => if u.id = userId then { u with refreshToken := none } else u)
  { status := 200, message := "Logout successful", db := db',
    accessCookie := some clearAuthCookies.1, refreshCookie := some clearAuthCookies.2,
    accessTokenBody := none }

/-- authController.js `refreshToken` (POST /api/auth/refresh).  The token is
taken from the `refreshToken` cookie, falling back to the request body
(`req.cookies?.refreshToken || req.body.refreshToken`); `iat` models the
signing time of the newly issued pair. -/
def refreshToken (db : List UserDoc) (cookieToken bodyToken : Option Data)
    (iat : Nat) : AuthResult :=
  match cookieToken <|> bodyToken with
  | none => authError db 401 "Refresh token not found"
  | some token =>
    match verifyRefreshToken token with
    | none => authError db 401 "Invalid or expired refresh token"
    | some userId =>
      let hashedToken := hashToken token
      match db.find? (fun u => decide (u.id = userId ∧ u.refreshToken = some hashedToken)) with
      | none => authError db 401 "Invalid refresh token"
      | some user =>
        let tokens := generateTokens user.id iat
        let user' := { user with refreshToken := some (hashToken tokens.2) }
        let db' := saveUser db user'
        let cookies := setAuthCookies tokens.1 tokens.2
        { status := 200, message := "Token refreshed successfully", db := db',
          accessCookie := some cookies.1, refreshCookie := some cookies.2,
          accessTokenBody := some tokens.1 }

/-- authController.js `changePassword` (PUT /api/auth/change-password):
verify the current password, store the bcrypt hash of the new one, clear the
stored refresh token hash (logout from all devices) and clear the cookies. -/
def changePassword (db : List UserDoc) (userId : Nat)
    (currentPassword newPassword : String) : AuthResult :=
  if currentPassword = "" ∨ newPassword = "" then
    authError db 400 "Please provide current and new password"
  else if newPassword.length < 8 then
    authError db 400 "New password must be at least 8 characters long"
  else match db.find? (fun u => decide (u.id = userId)) with
  | none => authError db 404 "User not found"
  | some user =>
    if ¬ comparePassword user currentPassword then
      authError db 401 "Current password is incorrect"
    else
      let user' := { user with
                     password := Data.bcrypt newPassword,
                     refreshToken := none }
      let db' := saveUser db user'
      { status := 200,
        message := "Password changed successfully. Please log in again.",
        db := db',
        accessCookie := some clearAuthCookies.1,
        refreshCookie := some clearAuthCookies.2,
        accessTokenBody := none }

/-- The selector of `resetPassword` and `verifyResetToken`:
`resetPasswordToken` equals the digest and `resetPasswordExpire` is strictly
in the future (`$gt: Date.now()`; a missing expiry fails the comparison). -/
def resetSelector (hashedToken : Data) (now : Nat) (u : UserDoc) : Bool :=
  decide (u.resetPasswordToken = some hashedToken) &&
    match u.resetPasswordExpire with
    | some e => decide (now < e)
    | none => false

/-- authController.js `verifyResetToken` (POST /api/auth/verify-reset-token). -/
def verifyResetToken (db : List UserDoc) (token : String) (now : Nat) : AuthResult :=
  if token = "" then
    authError db 400 "Please provide reset token"
  else
    let hashedToken := Data.sha256 (Data.str token)
    match db.find? (resetSelector hashedToken now) with
    | none => authError db 400 "Invalid or expired reset token"
    | some _ =>
      { status := 200, message := "Token is valid", db := db,
        accessCookie := none, refreshCookie := none, accessTokenBody := none }

/-- authController.js `resetPassword` (POST /api/auth/reset-password):
hash-and-compare the token with expiry; on success store the new password
hash, clear the reset token fields and the stored refresh token hash. -/
def resetPassword (db : List UserDoc)
    (token newPassword confirmPassword : String) (now : Nat) : AuthResult :=
  if token = "" ∨ newPassword = "" ∨ confirmPassword = "" then
    authError db 400 "Please provide all required fields"
  else if newPassword ≠ confirmPassword then
    authError db 400 "Passwords do not match"
  else if newPassword.length < 8 then
    authError db 400 "Password must be at least 8 characters long"
  else
    let hashedToken := Data.sha256 (Data.str token)
    match db.find? (resetSelector hashedToken now) with
    | none => authError db 400 "Invalid or expired reset token"
    | some user =>
      let user' := { user with
                     password := Data.bcrypt newPassword,
                     resetPasswordToken := none,
                     resetPasswordExpire := none,
                     refreshToken := none }
      let db' := saveUser db user'
      { status := 200,
        message := "Password has been reset successfully. Please log in with your new password.",
        db := db',
        accessCookie := none, refreshCookie := none, accessTokenBody := none }

/-! middleware/auth.js -/

/-- Abstraction of the Authorization header value, keeping exactly the
distinctions middleware/auth.js makes: a header starting with Bearer and
carrying a token after the first space (element 1 of the split at spaces),
a header starting with Bearer but with nothing after it (the split yields
`undefined` at index 1), and any other header value. -/
inductive BearerHeader : Type where
  | bearerWith (token : Data)
  | bearerBare
  | nonBearer (s : String)
deriving DecidableEq, Repr

/-- middleware/auth.js lines 10-19: token from the Authorization Bearer
header, or else from the `accessToken` cookie.  When the header starts with
Bearer but has no second word, the token is `undefined` and the cookie is
not consulted (the cookie branch is an `else if`). -/
def extractToken (auth : Option BearerHeader) (cookieAccessToken : Option Data) :
    Option Data :=
  match auth with
  | some (BearerHeader.bearerWith token) => some token
  | some BearerHeader.bearerBare => none
  | some (BearerHeader.nonBearer _) => cookieAccessToken
  | none => cookieAccessToken

/-- Outcome of the `protect` middleware: a 401 response (the route handler
is not invoked), or `next()` with `req.userId` set. -/
inductive ProtectOutcome : Type where
  | unauthorized (message : String)
  | proceed (userId : Nat)
deriving DecidableEq, Repr

/-- middleware/auth.js `protect`: extract the token, verify it, load the
user, and either respond 401 or invoke the handler with `req.userId` set to
the loaded user `_id`. -/
def protect (db : List UserDoc) (auth : Option BearerHeader)
    (cookieAccessToken : Option Data) : ProtectOutcome :=
  match extractToken auth cookieAccessToken with
  | none => ProtectOutcome.unauthorized "Not authorized to access this route. Please login."
  | some token =>
    match verifyAccessToken token with
    | none => ProtectOutcome.unauthorized "Token is invalid or expired. Please login again."
    | some userId =>
      match db.find? (fun u => decide (u.id = userId)) with
      | none => ProtectOutcome.unauthorized "User not found. Token is invalid."
      | some user => ProtectOutcome.proceed user.id

/-! controllers/noteController.js -/

/-- A document of the `notes` collection. -/
structure NoteDoc where
  id : Nat
  user : Nat
  title : String
  content : String
  tags : List String
  color : String
  isPinned : Bool
  isArchived : Bool
  createdAt : Nat
  updatedAt : Nat
deriving DecidableEq, Repr

/-- Mongoose `note.save()`: write the document back over the stored document
carrying the same `_id`. -/
def saveNote (db : List NoteDoc) (n : NoteDoc) : List NoteDoc :=
  db.map (fun m => if m.id = n.id then n else m)

/-- Model of the `$regex: search, $options: i` match: case-insensitive
substring containment (the search string is taken as a literal pattern;
regex metacharacters are not modelled).  An empty pattern matches every
string, as the empty regex does. -/
def ciContains (hay pat : String) : Bool :=
  decide (pat = "") || decide (2 ≤ ((hay.toLower).splitOn (pat.toLower)).length)

/-- Query parameters of GET /api/notes with the defaults of the
destructuring in `getNotes`.  `tags` is either a comma-separated string or
an array; `page` and `limit` stand for the `parseInt` of the numeric query
strings. -/
structure GetNotesParams where
  search : Option String := none
  tags : Option (String ⊕ List String) := none
  isPinned : Option String := none
  isArchived : Option String := none
  sortBy : String := "createdAt"
  sortOrder : String := "desc"
  page : Nat := 1
  limit : Nat := 50
deriving DecidableEq, Repr

/-- The MongoDB filter document `getNotes` builds. -/
structure NoteQuery where
  user : Nat
  search : Option String
  tagsIn : Option (List String)
  isPinned : Option Bool
  isArchived : Bool
deriving DecidableEq, Repr

/-- noteController.js `getNotes` lines 21-49: build the filter.  `search`
and `tags` are added only when truthy; `isPinned` and `isArchived` whenever
present, as the boolean value of the comparison with the string true; an
absent `isArchived` defaults the filter to false. -/
def buildNotesQuery (userId : Nat) (p : GetNotesParams) : NoteQuery :=
  { user := userId,
    search := match p.search with
      | some s => if s = "" then none else some s
      | none => none,
    tagsIn := match p.tags with
      | some (Sum.inl s) => if s = "" then none else some (s.splitOn ",")
      | some (Sum.inr l) => some l
      | none => none,
    isPinned := match p.isPinned with
      | some s => some (decide (s = "true"))
      | none => none,
    isArchived := match p.isArchived with
      | some s => decide (s = "true")
      | none => false }

/-- Whether a note matches the filter document (`$or` over title and
content for the search, `$in` for the tags, equality for the flags, and the
implicit equality on `user`). -/
def matchesNote (q : NoteQuery) (n : NoteDoc) : Bool :=
  decide (n.user = q.user) &&
  (match q.search with
    | none => true
    | some s => ciContains n.title s || ciContains n.content s) &&
  (match q.tagsIn with
    | none => true
    | some ts => n.tags.any (fun t => ts.contains t)) &&
  (match q.isPinned with
    | none => true
    | some b => n.isPinned == b) &&
  (n.isArchived == q.isArchived)

/-- Comparison on the dynamically named sort field (`sortOptions[sortBy]`);
on a field the documents do not carry, every pair compares equal. -/
def noteFieldLE (sortBy : String) (a b : NoteDoc) : Bool :=
  if sortBy = "title" then decide (a.title ≤ b.title)
  else if sortBy = "updatedAt" then decide (a.updatedAt ≤ b.updatedAt)
  else if sortBy = "createdAt" then decide (a.createdAt ≤ b.createdAt)
  else true

/-- The `.sort(sortOptions)` step: ascending on the sort field when
`sortOrder` is the string asc, descending otherwise. -/
def noteSort (sortBy sortOrder : String) (l : List NoteDoc) : List NoteDoc :=
  List.insertionSort
    (fun a b =>
      (if sortOrder = "asc" then noteFieldLE sortBy a b else noteFieldLE sortBy b a) = true)
    l

/-- Result of a notes route: HTTP status, message, the `notes` collection
after the request, and the payload fields the various handlers fill. -/
structure NotesResult where
  status : Nat
  message : String
  db : List NoteDoc
  notes : List NoteDoc := []
  note : Option NoteDoc := none
  totalNotes : Nat := 0
  deletedCount : Nat := 0
deriving DecidableEq, Repr

/-- A notes error response, leaving the database unchanged. -/
def noteError (db : List NoteDoc) (status : Nat) (message : String) : NotesResult :=
  { status := status, message := message, db := db }

/-- noteController.js `getNotes` (GET /api/notes): filter, sort, paginate;
`totalNotes` is `countDocuments(query)`. -/
def getNotes (db : List NoteDoc) (userId : Nat) (p : GetNotesParams) : NotesResult :=
  let q := buildNotesQuery userId p
  let matching := db.filter (matchesNote q)
  let sorted := noteSort p.sortBy p.sortOrder matching
  let skip := (p.page - 1) * p.limit
  { status := 200, message := "Notes retrieved successfully", db := db,
    notes := (sorted.drop skip).take p.limit,
    totalNotes := matching.length }

/-- The ownership selector of the single-note routes:
`findOne(\x7b _id: req.params.id, user: req.userId \x7d)`. -/
def ownNote (userId noteId : Nat) (n : NoteDoc) : Bool :=
  decide (n.id = noteId ∧ n.user = userId)

/-- noteController.js `getNoteById` (GET /api/notes/:id). -/
def getNoteById (db : List NoteDoc) (userId noteId : Nat) : NotesResult :=
  match db.find? (ownNote userId noteId) with
  | none => noteError db 404 "Note not found"
  | some note =>
    { status := 200, message := "Note retrieved successfully", db := db,
      note := some note }

/-- Body of PUT /api/notes/:id; an absent field is left unchanged. -/
structure UpdateNoteBody where
  title : Option String := none
  content : Option String := none
  tags : Option (List String) := none
  color : Option String := none
  isPinned : Option Bool := none
  isArchived : Option Bool := none
deriving DecidableEq, Repr

/-- noteController.js `updateNote` (PUT /api/notes/:id): find the owned
note, validate the title length, overwrite the provided fields and save
(`now` models the `updatedAt` timestamp Mongoose writes on save). -/
def updateNote (db : List NoteDoc) (userId noteId : Nat) (b : UpdateNoteBody)
    (now : Nat) : NotesResult :=
  match db.find? (ownNote userId noteId) with
  | none => noteError db 404 "Note not found"
  | some note =>
    if (match b.title with | some t => decide (200 < t.length) | none => false) then
      noteError db 400 "Title cannot exceed 200 characters"
    else
      let note' := { note with
                     title := b.title.getD note.title,
                     content := b.content.getD note.content,
                     tags := b.tags.getD note.tags,
                     color := b.color.getD note.color,
                     isPinned := b.isPinned.getD note.isPinned,
                     isArchived := b.isArchived.getD note.isArchived,
                     updatedAt := now }
      { status := 200, message := "Note updated successfully",
        db := saveNote db note', note := some note' }

/-- noteController.js `deleteNote` (DELETE /api/notes/:id):
`findOneAndDelete` on the ownership selector. -/
def deleteNote (db : List NoteDoc) (userId noteId : Nat) : NotesResult :=
  match db.find? (ownNote userId noteId) with
  | none => noteError db 404 "Note not found"
  | some _ =>
    { status := 200, message := "Note deleted successfully",
      db := db.eraseP (ownNote userId noteId) }

/-- noteController.js `togglePin` (PATCH /api/notes/:id/pin). -/
def togglePin (db : List NoteDoc) (userId noteId : Nat) (now : Nat) : NotesResult :=
  match db.find? (ownNote userId noteId) with
  | none => noteError db 404 "Note not found"
  | some note =>
    let note' := { note with isPinned := !note.isPinned, updatedAt := now }
    { status := 200,
      message := if note'.isPinned then "Note pinned successfully" else "Note unpinned successfully",
      db := saveNote db note', note := some note' }

/-- noteController.js `toggleArchive` (PATCH /api/notes/:id/archive). -/
def toggleArchive (db : List NoteDoc) (userId noteId : Nat) (now : Nat) : NotesResult :=
  match db.find? (ownNote userId noteId) with
  | none => noteError db 404 "Note not found"
  | some note =>
    let note' := { note with isArchived := !note.isArchived, updatedAt := now }
    { status := 200,
      message := if note'.isArchived then "Note archived successfully" else "Note unarchived successfully",
      db := saveNote db note', note := some note' }

/-- The `stats` document of GET /api/notes/stats. -/
structure NotesStats where
  total : Nat
  pinned : Nat
  archived : Nat
  active : Nat
deriving DecidableEq, Repr

/-- noteController.js `getNotesStats` (GET /api/notes/stats): the `$match`
on `user` followed by the `$group` of conditional sums; when the aggregation
returns no document (no note for the user) the handler substitutes the zero
stats.  The separate top-tags aggregation is not modelled: no claim
mentions it. -/
def getNotesStats (db : List NoteDoc) (userId : Nat) : NotesStats :=
  let mine := db.filter (fun n => decide (n.user = userId))
  if mine.isEmpty then
    { total := 0, pinned := 0, archived := 0, active := 0 }
  else
    { total := mine.length,
      pinned := mine.countP (fun n => n.isPinned),
      archived := mine.countP (fun n => n.isArchived),
      active := mine.countP (fun n => !n.isArchived) }

/-- noteController.js `deleteMultipleNotes` (DELETE /api/notes):
`deleteMany(\x7b _id: \x7b $in: noteIds \x7d, user: req.userId \x7d)`;
`none` models a missing or non-array `noteIds` body field. -/
def deleteMultipleNotes (db : List NoteDoc) (userId : Nat)
    (noteIds : Option (List Nat)) : NotesResult :=
  match noteIds with
  | none => noteError db 400 "Please provide an array of note IDs"
  | some ids =>
    if ids.isEmpty then
      noteError db 400 "Please provide an array of note IDs"
    else
      let p : NoteDoc → Bool := fun n => ids.contains n.id && decide (n.user = userId)
      { status := 200, message := "note(s) deleted successfully",
        db := db.filter (fun n => !(p n)),
        deletedCount := db.countP p }

/-! Concrete fixtures, used to instantiate the theorems below. -/

/-- A note owned by user 1. -/
def sampleOwnNote : NoteDoc :=
  { id := 10, user := 1, title := "Alpha", content := "hello", tags := ["x"],
    color := "#ffffff", isPinned := false, isArchived := false,
    createdAt := 1, updatedAt := 1 }

/-- An archived note owned by user 1. -/
def sampleArchivedNote : NoteDoc :=
  { id := 11, user := 1, title := "Beta", content := "bye", tags := [],
    color := "#ffffff", isPinned := true, isArchived := true,
    createdAt := 2, updatedAt := 2 }

/-- A note owned by user 2. -/
def sampleForeignNote : NoteDoc :=
  { id := 12, user := 2, title := "Gamma", content := "other", tags := [],
    color := "#ffffff", isPinned := false, isArchived := false,
    createdAt := 3, updatedAt := 3 }

/-- A user holding a stored refresh token hash and a pending reset token. -/
def sampleUser : UserDoc :=
  { id := 1, name := "Ada", email := "ada@example.com",
    password := Data.bcrypt "password1",
    resetPasswordToken := some (Data.sha256 (Data.str "123456")),
    resetPasswordExpire := some 1000,
    refreshToken := some (hashToken (Data.jwtRefresh 1 5)) }

/-- The caller-foreign slice of the notes collection: the notes whose
`user` field differs from the caller. -/
def foreignNotes (db : List NoteDoc) (userId : Nat) : List NoteDoc :=
  db.filter (fun n => decide (n.user ≠ userId))

/-- The database invariant of claim C2: every stored `refreshToken` value is
a SHA-256 digest, never a plaintext (signed JWT) refresh token. -/
def storedHashed (db : List UserDoc) : Prop :=
  ∀ u ∈ db, ∀ d, u.refreshToken = some d → ∃ x, d = Data.sha256 x

/-! Helper lemmas about the database primitives. -/

theorem length_eq_countP_not_add {α : Type} (p : α → Bool) (l : List α) :
    l.length = l.countP (fun a => !p a) + l.countP p := by
  induction l with
  | nil => rfl
  | cons x t ih => cases hx : p x <;> simp [List.countP_cons, hx, ih] <;> omega

theorem mem_saveUser_cases {db : List UserDoc} {v u : UserDoc}
    (h : u ∈ saveUser db v) : u = v ∨ (u ∈ db ∧ u.id ≠ v.id) := by
  unfold saveUser at h
  obtain ⟨m, hm, hmu⟩ := List.mem_map.mp h
  by_cases hid : m.id = v.id
  · left
    simpa [hid] using hmu.symm
  · right
    simp only [if_neg hid] at hmu
    exact hmu ▸ ⟨hm, hmu ▸ hid⟩

theorem self_mem_saveUser {db : List UserDoc} {v w : UserDoc}
    (hw : w ∈ db) (hid : w.id = v.id) : v ∈ saveUser db v := by
  unfold saveUser
  have := List.mem_map_of_mem (fun x : UserDoc => if x.id = v.id then v else x) hw
  simpa [hid] using this

theorem mem_saveNote_cases {db : List NoteDoc} {v u : NoteDoc}
    (h : u ∈ saveNote db v) : u = v ∨ (u ∈ db ∧ u.id ≠ v.id) := by
  unfold saveNote at h
  obtain ⟨m, hm, hmu⟩ := List.mem_map.mp h
  by_cases hid : m.id = v.id
  · left
    simpa [hid] using hmu.symm
  · right
    simp only [if_neg hid] at hmu
    exact hmu ▸ ⟨hm, hmu ▸ hid⟩

theorem self_mem_saveNote {db : List NoteDoc} {v w : NoteDoc}
    (hw : w ∈ db) (hid : w.id = v.id) : v ∈ saveNote db v := by
  unfold saveNote
  have := List.mem_map_of_mem (fun x : NoteDoc => if x.id = v.id then v else x) hw
  simpa [hid] using this

theorem map_id_saveNote (db : List NoteDoc) (v : NoteDoc) :
    (saveNote db v).map NoteDoc.id = db.map NoteDoc.id := by
  unfold saveNote
  rw [List.map_map]
  apply List.map_congr_left
  intro m _
  by_cases hid : m.id = v.id <;> simp [hid]

theorem unique_of_nodup_map_id {db : List NoteDoc}
    (hnd : (db.map NoteDoc.id).Nodup) {m n : NoteDoc}
    (hm : m ∈ db) (hn : n ∈ db) (h : m.id = n.id) : m = n :=
  List.inj_on_of_nodup_map hnd hm hn h

theorem find?_ownNote_eq_some {db : List NoteDoc} {userId noteId : Nat} {n : NoteDoc}
    (hnd : (db.map NoteDoc.id).Nodup) (hn : n ∈ db)
    (hid : n.id = noteId) (hu : n.user = userId) :
    db.find? (ownNote userId noteId) = some n := by
  have hsome : (db.find? (ownNote userId noteId)).isSome := by
    rw [List.find?_isSome]
    exact ⟨n, hn, by simp [ownNote, hid, hu]⟩
  obtain ⟨m, hm⟩ := Option.isSome_iff_exists.mp hsome
  have hpm := List.find?_some hm
  have hmem := List.mem_of_find?_eq_some hm
  simp only [ownNote, decide_eq_true_eq] at hpm
  rw [hm, unique_of_nodup_map_id hnd hmem hn (by rw [hpm.1, hid])]

theorem matchesNote_isArchived {q : NoteQuery} {n : NoteDoc}
    (h : matchesNote q n = true) : n.isArchived = q.isArchived := by
  simp only [matchesNote, Bool.and_eq_true, beq_iff_eq] at h
  exact h.2

theorem matchesNote_user {q : NoteQuery} {n : NoteDoc}
    (h : matchesNote q n = true) : n.user = q.user := by
  simp only [matchesNote, Bool.and_eq_true, beq_iff_eq, decide_eq_true_eq] at h
  exact h.1.1.1.1

theorem mem_getNotes_notes {db : List NoteDoc} {userId : Nat} {p : GetNotesParams}
    {n : NoteDoc} (hn : n ∈ (getNotes db userId p).notes) :
    matchesNote (buildNotesQuery userId p) n = true := by
  unfold getNotes at hn
  simp only at hn
  have h1 := List.mem_of_mem_drop (List.mem_of_mem_take hn)
  unfold noteSort at h1
  rw [List.mem_insertionSort] at h1
  exact (List.mem_filter.mp h1).2

theorem find?_ownNote_eq_none {db : List NoteDoc} {userId noteId : Nat} {m : NoteDoc}
    (hnd : (db.map NoteDoc.id).Nodup) (hm : m ∈ db)
    (him : m.id = noteId) (hmu : m.user ≠ userId) :
    db.find? (ownNote userId noteId) = none := by
  rw [List.find?_eq_none]
  intro x hx hpx
  simp only [ownNote, decide_eq_true_eq] at hpx
  exact hmu (unique_of_nodup_map_id hnd hm hx (by rw [him, hpx.1]) ▸ hpx.2)

theorem ownNote_found {db : List NoteDoc} {userId noteId : Nat} {note : NoteDoc}
    (hf : db.find? (ownNote userId noteId) = some note) :
    note.id = noteId ∧ note.user = userId := by
  simpa [ownNote, decide_eq_true_eq] using List.find?_some hf

theorem same_id_user_eq_of_found {db : List NoteDoc} {userId noteId : Nat} {note : NoteDoc}
    (hnd : (db.map NoteDoc.id).Nodup)
    (hf : db.find? (ownNote userId noteId) = some note) :
    ∀ m ∈ db, m.id = note.id → m.user = userId := by
  intro m hm he
  have hmem := List.mem_of_find?_eq_some hf
  have hp := ownNote_found hf
  exact unique_of_nodup_map_id hnd hm hmem he ▸ hp.2

theorem foreign_saveNote {db : List NoteDoc} {userId : Nat} {v : NoteDoc}
    (hq : ∀ m ∈ db, m.id = v.id → m.user = userId) (hv : v.user = userId) :
    foreignNotes (saveNote db v) userId = foreignNotes db userId := by
  induction db with
  | nil => rfl
  | cons h t ih =>
    have iht := ih (fun m hm he => hq m (List.mem_cons_of_mem h hm) he)
    unfold foreignNotes saveNote at iht ⊢
    by_cases hid : h.id = v.id
    · have hhu : h.user = userId := hq h (List.mem_cons_self h t) hid
      simp only [List.map_cons, if_pos hid, List.filter_cons]
      rw [if_neg (by simp [hv]), if_neg (by simp [hhu])]
      exact iht
    · simp only [List.map_cons, if_neg hid, List.filter_cons]
      by_cases hfu : h.user = userId
      · rw [if_neg (by simp [hfu]), if_neg (by simp [hfu])]
        exact iht
      · rw [if_pos (by simp [hfu]), if_pos (by simp [hfu])]
        rw [iht]

theorem foreign_eraseP {db : List NoteDoc} {userId : Nat} {p : NoteDoc → Bool}
    (hp : ∀ m, p m = true → m.user = userId) :
    foreignNotes (db.eraseP p) userId = foreignNotes db userId := by
  induction db with
  | nil => rfl
  | cons h t ih =>
    unfold foreignNotes at ih ⊢
    by_cases hph : p h = true
    · have hhu := hp h hph
      simp only [List.eraseP_cons, hph, cond_true, List.filter_cons]
      rw [if_neg (by simp [hhu])]
    · simp only [List.eraseP_cons, hph, cond_false, List.filter_cons]
      by_cases hfu : h.user = userId
      · rw [if_neg (by simp [hfu]), if_neg (by simp [hfu])]
        exact ih
      · rw [if_pos (by simp [hfu]), if_pos (by simp [hfu])]
        rw [ih]

theorem foreign_filter_out {db : List NoteDoc} {userId : Nat} {p : NoteDoc → Bool}
    (hp : ∀ m, p m = true → m.user = userId) :
    foreignNotes (db.filter (fun n => !(p n))) userId = foreignNotes db userId := by
  induction db with
  | nil => rfl
  | cons h t ih =>
    unfold foreignNotes at ih ⊢
    by_cases hph : p h = true
    · have hhu := hp h hph
      simp only [List.filter_cons, hph, Bool.not_true]
      rw [if_neg (by simp), if_neg (by simp [hhu])]
      exact ih
    · have hph' : p h = false := by simpa using hph
      simp only [List.filter_cons, hph', Bool.not_false]
      rw [if_pos (by simp)]
      rw [List.filter_cons]
      by_cases hfu : h.user = userId
      · rw [if_neg (by simp [hfu]), if_neg (by simp [hfu])]
        exact ih
      · rw [if_pos (by simp [hfu]), if_pos (by simp [hfu])]
        rw [ih]

/-! Claim theorems. -/

/-- Claim C8: for every user, `getNotesStats` returns `total` equal to the
number of that user notes, `archived` the number with `isArchived` true,
`active` the number with `isArchived` false, `pinned` the number with
`isPinned` true, so that `total = active + archived`; with no notes all four
counts are 0. -/
theorem c8_stats_consistent_counts (db : List NoteDoc) (userId : Nat) :
    (getNotesStats db userId).total = (db.filter (fun n => decide (n.user = userId))).length ∧
    (getNotesStats db userId).pinned =
      (db.filter (fun n => decide (n.user = userId))).countP (fun n => n.isPinned) ∧
    (getNotesStats db userId).archived =
      (db.filter (fun n => decide (n.user = userId))).countP (fun n => n.isArchived) ∧
    (getNotesStats db userId).active =
      (db.filter (fun n => decide (n.user = userId))).countP (fun n => !n.isArchived) ∧
    (getNotesStats db userId).total =
      (getNotesStats db userId).active + (getNotesStats db userId).archived ∧
    ((∀ n ∈ db, n.user ≠ userId) →
      getNotesStats db userId = { total := 0, pinned := 0, archived := 0, active := 0 }) := by
  have hlen := length_eq_countP_not_add (fun n : NoteDoc => n.isArchived)
    (db.filter (fun n => decide (n.user = userId)))
  by_cases h : (db.filter (fun n => decide (n.user = userId))) = []
  · simp [getNotesStats, h]
  · simp only [getNotesStats]
    rw [if_neg (by simpa [List.isEmpty_iff] using h)]
    refine ⟨rfl, rfl, rfl, rfl, hlen, fun hall =>
      absurd (List.filter_eq_nil_iff.mpr (by simpa using hall)) h⟩

/-- Witness for C8 at a concrete database. -/
theorem c8_stats_consistent_counts_witness :
    (getNotesStats
      [{ id := 1, user := 7, title := "a", content := "b", tags := [], color := "c",
         isPinned := true, isArchived := false, createdAt := 0, updatedAt := 0 }] 7).total = 1 := by
  have h := c8_stats_consistent_counts
    [{ id := 1, user := 7, title := "a", content := "b", tags := [], color := "c",
       isPinned := true, isArchived := false, createdAt := 0, updatedAt := 0 }] 7
  rw [h.1]
  decide

/-- Claim C7: when the `isArchived` query parameter is absent, the returned
list and the pagination total of `getNotes` cover only notes with
`isArchived = false`; when it is provided, the filter is the boolean value
of the comparison of the parameter with the string true. -/
theorem c7_archived_hidden_by_default (db : List NoteDoc) (userId : Nat)
    (p : GetNotesParams) :
    (p.isArchived = none →
      (∀ n ∈ (getNotes db userId p).notes, n.isArchived = false) ∧
      (getNotes db userId p).totalNotes =
        (db.filter (fun n => matchesNote (buildNotesQuery userId p) n)).length ∧
      (∀ n : NoteDoc, matchesNote (buildNotesQuery userId p) n = true →
        n.isArchived = false)) ∧
    (∀ s, p.isArchived = some s →
      (buildNotesQuery userId p).isArchived = decide (s = "true") ∧
      (∀ n ∈ (getNotes db userId p).notes, n.isArchived = decide (s = "true"))) := by
  have harch : ∀ n ∈ (getNotes db userId p).notes,
      n.isArchived = (buildNotesQuery userId p).isArchived :=
    fun n hn => matchesNote_isArchived (mem_getNotes_notes hn)
  constructor
  · intro h
    have hq : (buildNotesQuery userId p).isArchived = false := by
      simp [buildNotesQuery, h]
    exact ⟨fun n hn => (harch n hn).trans hq, rfl,
      fun n hm => (matchesNote_isArchived hm).trans hq⟩
  · intro s hs
    have hq : (buildNotesQuery userId p).isArchived = decide (s = "true") := by
      simp [buildNotesQuery, hs]
    exact ⟨hq, fun n hn => (harch n hn).trans hq⟩

/-- Witness for C7: the default query on a one-archived-note database. -/
theorem c7_archived_hidden_by_default_witness :
    (getNotes [sampleArchivedNote] 1 {}).totalNotes =
      ([sampleArchivedNote].filter
        (fun n => matchesNote (buildNotesQuery 1 {}) n)).length :=
  ((c7_archived_hidden_by_default [sampleArchivedNote] 1 {}).1 rfl).2.1

/-- Claim C6: `protect` invokes the route handler with `req.userId` set to
the verified user id exactly when a token was extracted, it verifies as an
access JWT, and a user with the decoded id exists; in every other case it
responds 401 without invoking the handler. -/
theorem c6_protect_authorizes (db : List UserDoc) (auth : Option BearerHeader)
    (cookie : Option Data) :
    (∀ userId, protect db auth cookie = ProtectOutcome.proceed userId ↔
      ∃ t, extractToken auth cookie = some t ∧ verifyAccessToken t = some userId ∧
        ∃ u ∈ db, u.id = userId) ∧
    ((¬ ∃ t userId, extractToken auth cookie = some t ∧
        verifyAccessToken t = some userId ∧ ∃ u ∈ db, u.id = userId) →
      ∃ m, protect db auth cookie = ProtectOutcome.unauthorized m) := by
  cases hx : extractToken auth cookie with
  | none =>
    have hp : protect db auth cookie =
        ProtectOutcome.unauthorized "Not authorized to access this route. Please login." := by
      simp [protect, hx]
    refine ⟨fun userId => ⟨fun h => ?_, ?_⟩, fun _ => ⟨_, hp⟩⟩
    · rw [hp] at h
      cases h
    · rintro ⟨t, ht, -⟩
      cases ht
  | some t =>
    cases hv : verifyAccessToken t with
    | none =>
      have hp : protect db auth cookie =
          ProtectOutcome.unauthorized "Token is invalid or expired. Please login again." := by
        simp [protect, hx, hv]
      refine ⟨fun userId => ⟨fun h => ?_, ?_⟩, fun _ => ⟨_, hp⟩⟩
      · rw [hp] at h
        cases h
      · rintro ⟨t', ht', hv', -⟩
        rw [← Option.some_inj.mp ht'] at hv'
        rw [hv] at hv'
        cases hv'
    | some uid =>
      cases hf : db.find? (fun u => decide (u.id = uid)) with
      | none =>
        have hp : protect db auth cookie =
            ProtectOutcome.unauthorized "User not found. Token is invalid." := by
          simp [protect, hx, hv, hf]
        rw [List.find?_eq_none] at hf
        refine ⟨fun userId => ⟨fun h => ?_, ?_⟩, fun _ => ⟨_, hp⟩⟩
        · rw [hp] at h
          cases h
        · rintro ⟨t', ht', hv', u, hu, huid⟩
          rw [← Option.some_inj.mp ht'] at hv'
          rw [hv] at hv'
          exact absurd (by simp [huid, Option.some_inj.mp hv']) (hf u hu)
      | some u =>
        have hu := List.mem_of_find?_eq_some hf
        have hid : u.id = uid := by simpa using List.find?_some hf
        have hp : protect db auth cookie = ProtectOutcome.proceed u.id := by
          simp [protect, hx, hv, hf]
        refine ⟨fun userId => ⟨fun h => ?_, ?_⟩,
          fun hno => absurd ⟨t, uid, rfl, hv, u, hu, hid⟩ hno⟩
        · rw [hp] at h
          cases h
          exact ⟨t, rfl, hid ▸ hv, u, hu, rfl⟩
        · rintro ⟨t', ht', hv', u', hu', huid'⟩
          rw [hp]
          rw [← Option.some_inj.mp ht'] at hv'
          rw [hv] at hv'
          rw [hid, Option.some_inj.mp hv']

/-- Witness for C6: a valid Bearer token of an existing user proceeds. -/
theorem c6_protect_authorizes_witness :
    protect [sampleUser] (some (BearerHeader.bearerWith (Data.jwtAccess 1 0)))
      none = ProtectOutcome.proceed 1 :=
  ((c6_protect_authorizes [sampleUser]
      (some (BearerHeader.bearerWith (Data.jwtAccess 1 0))) none).1 1).mpr
    ⟨Data.jwtAccess 1 0, rfl, rfl, sampleUser, by decide, rfl⟩

/-- Claim C9: on a caller-owned note, `togglePin` and `toggleArchive`
change only the toggled flag and the `updatedAt` timestamp, and applying
the same toggle twice restores the original flag value. -/
theorem c9_toggles_involutive (db : List NoteDoc) (userId noteId t₁ t₂ : Nat)
    (n : NoteDoc) (hnd : (db.map NoteDoc.id).Nodup) (hn : n ∈ db)
    (hid : n.id = noteId) (hu : n.user = userId) :
    (togglePin db userId noteId t₁).note =
      some { n with isPinned := !n.isPinned, updatedAt := t₁ } ∧
    (togglePin db userId noteId t₁).db =
      saveNote db { n with isPinned := !n.isPinned, updatedAt := t₁ } ∧
    (togglePin (togglePin db userId noteId t₁).db userId noteId t₂).note =
      some { n with updatedAt := t₂ } ∧
    (toggleArchive db userId noteId t₁).note =
      some { n with isArchived := !n.isArchived, updatedAt := t₁ } ∧
    (toggleArchive db userId noteId t₁).db =
      saveNote db { n with isArchived := !n.isArchived, updatedAt := t₁ } ∧
    (toggleArchive (toggleArchive db userId noteId t₁).db userId noteId t₂).note =
      some { n with updatedAt := t₂ } := by
  have h1 : db.find? (ownNote userId noteId) = some n :=
    find?_ownNote_eq_some hnd hn hid hu
  have hpin1 :
      (togglePin db userId noteId t₁).db =
        saveNote db { n with isPinned := !n.isPinned, updatedAt := t₁ } := by
    simp [togglePin, h1]
  have harc1 :
      (toggleArchive db userId noteId t₁).db =
        saveNote db { n with isArchived := !n.isArchived, updatedAt := t₁ } := by
    simp [toggleArchive, h1]
  have hndp : ((saveNote db { n with isPinned := !n.isPinned, updatedAt := t₁ }).map
      NoteDoc.id).Nodup := by
    rw [map_id_saveNote]
    exact hnd
  have hnda : ((saveNote db { n with isArchived := !n.isArchived, updatedAt := t₁ }).map
      NoteDoc.id).Nodup := by
    rw [map_id_saveNote]
    exact hnd
  have hmemp : ({ n with isPinned := !n.isPinned, updatedAt := t₁ } : NoteDoc) ∈
      saveNote db { n with isPinned := !n.isPinned, updatedAt := t₁ } :=
    self_mem_saveNote hn rfl
  have hmema : ({ n with isArchived := !n.isArchived, updatedAt := t₁ } : NoteDoc) ∈
      saveNote db { n with isArchived := !n.isArchived, updatedAt := t₁ } :=
    self_mem_saveNote hn rfl
  have h2p : (saveNote db { n with isPinned := !n.isPinned, updatedAt := t₁ }).find?
      (ownNote userId noteId) = some { n with isPinned := !n.isPinned, updatedAt := t₁ } :=
    find?_ownNote_eq_some hndp hmemp hid hu
  have h2a : (saveNote db { n with isArchived := !n.isArchived, updatedAt := t₁ }).find?
      (ownNote userId noteId) = some { n with isArchived := !n.isArchived, updatedAt := t₁ } :=
    find?_ownNote_eq_some hnda hmema hid hu
  refine ⟨by simp [togglePin, h1], hpin1, ?_, by simp [toggleArchive, h1], harc1, ?_⟩
  · rw [hpin1]
    simp [togglePin, h2p]
  · rw [harc1]
    simp [toggleArchive, h2a]

/-- Witness for C9: toggling the pin of a concrete owned note. -/
theorem c9_toggles_involutive_witness :
    (togglePin [sampleOwnNote] 1 10 7).note =
      some { sampleOwnNote with isPinned := !sampleOwnNote.isPinned, updatedAt := 7 } :=
  (c9_toggles_involutive [sampleOwnNote] 1 10 7 8 sampleOwnNote
    (by decide) (by decide) (by decide) (by decide)).1

theorem updateNote_foreign (db : List NoteDoc) (userId noteId : Nat)
    (b : UpdateNoteBody) (now : Nat) (hnd : (db.map NoteDoc.id).Nodup) :
    foreignNotes (updateNote db userId noteId b now).db userId = foreignNotes db userId := by
  cases hf : db.find? (ownNote userId noteId) with
  | none => simp [updateNote, hf, noteError]
  | some note =>
    by_cases hb : (match b.title with
      | some t => decide (200 < t.length)
      | none => false) = true
    · simp [updateNote, hf, hb, noteError]
    · have hdb : (updateNote db userId noteId b now).db =
          saveNote db { note with
                        title := b.title.getD note.title,
                        content := b.content.getD note.content,
                        tags := b.tags.getD note.tags,
                        color := b.color.getD note.color,
                        isPinned := b.isPinned.getD note.isPinned,
                        isArchived := b.isArchived.getD note.isArchived,
                        updatedAt := now } := by
        simp [updateNote, hf, hb]
      rw [hdb]
      exact foreign_saveNote (fun m hm he => same_id_user_eq_of_found hnd hf m hm he)
        (ownNote_found hf).2

theorem togglePin_foreign (db : List NoteDoc) (userId noteId now : Nat)
    (hnd : (db.map NoteDoc.id).Nodup) :
    foreignNotes (togglePin db userId noteId now).db userId = foreignNotes db userId := by
  cases hf : db.find? (ownNote userId noteId) with
  | none => simp [togglePin, hf, noteError]
  | some note =>
    have hdb : (togglePin db userId noteId now).db =
        saveNote db { note with isPinned := !note.isPinned, updatedAt := now } := by
      simp [togglePin, hf]
    rw [hdb]
    exact foreign_saveNote (fun m hm he => same_id_user_eq_of_found hnd hf m hm he)
      (ownNote_found hf).2

theorem toggleArchive_foreign (db : List NoteDoc) (userId noteId now : Nat)
    (hnd : (db.map NoteDoc.id).Nodup) :
    foreignNotes (toggleArchive db userId noteId now).db userId = foreignNotes db userId := by
  cases hf : db.find? (ownNote userId noteId) with
  | none => simp [toggleArchive, hf, noteError]
  | some note =>
    have hdb : (toggleArchive db userId noteId now).db =
        saveNote db { note with isArchived := !note.isArchived, updatedAt := now } := by
      simp [toggleArchive, hf]
    rw [hdb]
    exact foreign_saveNote (fun m hm he => same_id_user_eq_of_found hnd hf m hm he)
      (ownNote_found hf).2

theorem deleteNote_foreign (db : List NoteDoc) (userId noteId : Nat) :
    foreignNotes (deleteNote db userId noteId).db userId = foreignNotes db userId := by
  cases hf : db.find? (ownNote userId noteId) with
  | none => simp [deleteNote, hf, noteError]
  | some note =>
    have hdb : (deleteNote db userId noteId).db = db.eraseP (ownNote userId noteId) := by
      simp [deleteNote, hf]
    rw [hdb]
    exact foreign_eraseP (fun m hm => by
      simp only [ownNote, decide_eq_true_eq] at hm
      exact hm.2)

theorem deleteMultipleNotes_foreign (db : List NoteDoc) (userId : Nat)
    (noteIds : Option (List Nat)) :
    foreignNotes (deleteMultipleNotes db userId noteIds).db userId =
      foreignNotes db userId := by
  cases noteIds with
  | none => simp [deleteMultipleNotes, noteError]
  | some ids =>
    by_cases hids : ids.isEmpty = true
    · simp [deleteMultipleNotes, hids, noteError]
    · have hdb : (deleteMultipleNotes db userId (some ids)).db =
          db.filter (fun n => !(ids.contains n.id && decide (n.user = userId))) := by
        simp [deleteMultipleNotes, hids]
      rw [hdb]
      exact foreign_filter_out (fun m hm => by
        simp only [Bool.and_eq_true, decide_eq_true_eq] at hm
        exact hm.2)

/-- Claim C5: notes are strictly per-user.  With an arbitrary `noteId`,
every note operation returns or modifies only notes owned by the caller and
leaves the caller-foreign slice of the collection unchanged; with `otherId`
the id of a note of another user, the single-note operations answer 404
without touching the database, and bulk deletion keeps every foreign
note. -/
theorem c5_notes_strictly_per_user (db : List NoteDoc) (userId : Nat)
    (p : GetNotesParams) (b : UpdateNoteBody) (now : Nat)
    (ids : Option (List Nat)) (noteId otherId : Nat) (m : NoteDoc)
    (hnd : (db.map NoteDoc.id).Nodup) (hm : m ∈ db)
    (him : m.id = otherId) (hmu : m.user ≠ userId) :
    ((getNotes db userId p).db = db ∧
      ∀ n ∈ (getNotes db userId p).notes, n.user = userId) ∧
    ((getNoteById db userId noteId).db = db ∧
      ∀ n, (getNoteById db userId noteId).note = some n → n.user = userId) ∧
    ((∀ n, (updateNote db userId noteId b now).note = some n → n.user = userId) ∧
      foreignNotes (updateNote db userId noteId b now).db userId =
        foreignNotes db userId) ∧
    foreignNotes (deleteNote db userId noteId).db userId = foreignNotes db userId ∧
    ((∀ n, (togglePin db userId noteId now).note = some n → n.user = userId) ∧
      foreignNotes (togglePin db userId noteId now).db userId =
        foreignNotes db userId) ∧
    ((∀ n, (toggleArchive db userId noteId now).note = some n → n.user = userId) ∧
      foreignNotes (toggleArchive db userId noteId now).db userId =
        foreignNotes db userId) ∧
    (foreignNotes (deleteMultipleNotes db userId ids).db userId =
        foreignNotes db userId ∧
      ∀ n ∈ db, n.user ≠ userId → n ∈ (deleteMultipleNotes db userId ids).db) ∧
    ((getNoteById db userId otherId).status = 404 ∧
      (getNoteById db userId otherId).db = db) ∧
    ((updateNote db userId otherId b now).status = 404 ∧
      (updateNote db userId otherId b now).db = db) ∧
    ((deleteNote db userId otherId).status = 404 ∧
      (deleteNote db userId otherId).db = db) ∧
    ((togglePin db userId otherId now).status = 404 ∧
      (togglePin db userId otherId now).db = db) ∧
    ((toggleArchive db userId otherId now).status = 404 ∧
      (toggleArchive db userId otherId now).db = db) := by
  have hnone := find?_ownNote_eq_none hnd hm him hmu
  refine ⟨⟨rfl, ?_⟩, ⟨?_, ?_⟩, ⟨?_, updateNote_foreign db userId noteId b now hnd⟩,
    deleteNote_foreign db userId noteId,
    ⟨?_, togglePin_foreign db userId noteId now hnd⟩,
    ⟨?_, toggleArchive_foreign db userId noteId now hnd⟩,
    ⟨deleteMultipleNotes_foreign db userId ids, ?_⟩,
    by simp [getNoteById, hnone, noteError],
    by simp [updateNote, hnone, noteError],
    by simp [deleteNote, hnone, noteError],
    by simp [togglePin, hnone, noteError],
    by simp [toggleArchive, hnone, noteError]⟩
  · intro n hn
    have := matchesNote_user (mem_getNotes_notes hn)
    simpa [buildNotesQuery] using this
  · cases hf : db.find? (ownNote userId noteId) <;>
      simp [getNoteById, hf, noteError]
  · intro n hn
    cases hf : db.find? (ownNote userId noteId) with
    | none => simp [getNoteById, hf, noteError] at hn
    | some note =>
      have : note = n := by simpa [getNoteById, hf] using hn
      exact this ▸ (ownNote_found hf).2
  · intro n hn
    cases hf : db.find? (ownNote userId noteId) with
    | none => simp [updateNote, hf, noteError] at hn
    | some note =>
      by_cases hb : (match b.title with
        | some t => decide (200 < t.length)
        | none => false) = true
      · simp [updateNote, hf, hb, noteError] at hn
      · have : ({ note with
            title := b.title.getD note.title,
            content := b.content.getD note.content,
            tags := b.tags.getD note.tags,
            color := b.color.getD note.color,
            isPinned := b.isPinned.getD note.isPinned,
            isArchived := b.isArchived.getD note.isArchived,
            updatedAt := now } : NoteDoc) = n := by
          simpa [updateNote, hf, hb] using hn
        rw [← this]
        exact (ownNote_found hf).2
  · intro n hn
    cases hf : db.find? (ownNote userId noteId) with
    | none => simp [togglePin, hf, noteError] at hn
    | some note =>
      have : ({ note with isPinned := !note.isPinned, updatedAt := now } : NoteDoc) = n := by
        simpa [togglePin, hf] using hn
      rw [← this]
      exact (ownNote_found hf).2
  · intro n hn
    cases hf : db.find? (ownNote userId noteId) with
    | none => simp [toggleArchive, hf, noteError] at hn
    | some note =>
      have : ({ note with isArchived := !note.isArchived, updatedAt := now } : NoteDoc) = n := by
        simpa [toggleArchive, hf] using hn
      rw [← this]
      exact (ownNote_found hf).2
  · intro n hn hnu
    have h1 : n ∈ foreignNotes db userId :=
      List.mem_filter.mpr ⟨hn, by simpa using hnu⟩
    rw [← deleteMultipleNotes_foreign db userId ids] at h1
    exact (List.mem_filter.mp h1).1

/-- Witness for C5: a foreign note id answers 404 on a concrete database. -/
theorem c5_notes_strictly_per_user_witness :
    (getNoteById [sampleOwnNote, sampleForeignNote] 1 12).status = 404 :=
  (c5_notes_strictly_per_user [sampleOwnNote, sampleForeignNote] 1 {} {} 5
    (some [10, 12]) 10 12 sampleForeignNote (by decide) (by decide)
    (by decide) (by decide)).2.2.2.2.2.2.2.1.1

/-- Claim C1: a successful POST /api/auth/refresh issues a new access and
refresh token and overwrites the stored hash with the hash of the new
refresh token, so the presented token no longer matches the stored hash and
a second refresh with it is rejected with 401.  The freshness hypothesis
states that the newly minted token differs from the presented one (distinct
`iat`), the idealization of `jwt.sign` producing fresh tokens. -/
theorem c1_refresh_rotation (db : List UserDoc) (ct bt : Option Data)
    (iat : Nat) (t : Data)
    (ht : (ct <|> bt) = some t)
    (h200 : (refreshToken db ct bt iat).status = 200)
    (hfresh : ∀ uid j, t = Data.jwtRefresh uid j → j ≠ iat) :
    ∃ uid j, t = Data.jwtRefresh uid j ∧
      (refreshToken db ct bt iat).accessTokenBody =
        some (Data.jwtAccess uid iat) ∧
      (refreshToken db ct bt iat).refreshCookie =
        some { value := some (Data.jwtRefresh uid iat), httpOnly := true } ∧
      (∃ u ∈ (refreshToken db ct bt iat).db, u.id = uid ∧
        u.refreshToken = some (hashToken (Data.jwtRefresh uid iat))) ∧
      (∀ u ∈ (refreshToken db ct bt iat).db, u.id = uid →
        u.refreshToken ≠ some (hashToken t)) ∧
      (∀ ct' bt' iat', (ct' <|> bt') = some t →
        (refreshToken (refreshToken db ct bt iat).db ct' bt' iat').status = 401) := by
  cases t with
  | str s => simp [refreshToken, ht, verifyRefreshToken, authError] at h200
  | jwtAccess a b => simp [refreshToken, ht, verifyRefreshToken, authError] at h200
  | sha256 d => simp [refreshToken, ht, verifyRefreshToken, authError] at h200
  | bcrypt pw => simp [refreshToken, ht, verifyRefreshToken, authError] at h200
  | jwtRefresh uid j =>
    cases hf : db.find? (fun u =>
        decide (u.id = uid ∧ u.refreshToken = some (hashToken (Data.jwtRefresh uid j)))) with
    | none =>
      simp only [refreshToken, ht, verifyRefreshToken] at h200
      rw [hf] at h200
      simp [authError] at h200
    | some user =>
      have hp := List.find?_some hf
      rw [decide_eq_true_eq] at hp
      obtain ⟨huid, hurt⟩ := hp
      have hmem := List.mem_of_find?_eq_some hf
      subst huid
      have hres : refreshToken db ct bt iat =
          { status := 200, message := "Token refreshed successfully",
            db := saveUser db { user with
              refreshToken := some (hashToken (Data.jwtRefresh user.id iat)) },
            accessCookie := some { value := some (Data.jwtAccess user.id iat),
                                   httpOnly := true },
            refreshCookie := some { value := some (Data.jwtRefresh user.id iat),
                                    httpOnly := true },
            accessTokenBody := some (Data.jwtAccess user.id iat) } := by
        simp only [refreshToken, ht, verifyRefreshToken]
        rw [hf]
        simp [generateTokens, generateAccessToken, generateRefreshToken, setAuthCookies]
      have hdb : (refreshToken db ct bt iat).db =
          saveUser db { user with
            refreshToken := some (hashToken (Data.jwtRefresh user.id iat)) } := by
        rw [hres]
      have hne : j ≠ iat := hfresh user.id j rfl
      refine ⟨user.id, j, rfl, by rw [hres], by rw [hres], ?_, ?_, ?_⟩
      · rw [hdb]
        exact ⟨{ user with
            refreshToken := some (hashToken (Data.jwtRefresh user.id iat)) },
          self_mem_saveUser hmem rfl, rfl, rfl⟩
      · rw [hdb]
        intro u hu hid hcontra
        rcases mem_saveUser_cases hu with rfl | ⟨-, hneid⟩
        · simp only [hashToken, Option.some_inj, Data.sha256.injEq,
            Data.jwtRefresh.injEq] at hcontra
          exact hne hcontra.2.symm
        · exact hneid hid
      · intro ct' bt' iat' ht'
        rw [hdb]
        have hnone : (saveUser db { user with
            refreshToken := some (hashToken (Data.jwtRefresh user.id iat)) }).find?
              (fun u => decide (u.id = user.id ∧
                u.refreshToken = some (hashToken (Data.jwtRefresh user.id j)))) = none := by
          rw [List.find?_eq_none]
          intro x hx hpx
          rw [decide_eq_true_eq] at hpx
          obtain ⟨hxid, hxrt⟩ := hpx
          rcases mem_saveUser_cases hx with rfl | ⟨-, hneid⟩
          · simp only [hashToken, Option.some_inj, Data.sha256.injEq,
              Data.jwtRefresh.injEq] at hxrt
            exact hne hxrt.2.symm
          · exact hneid hxid
        simp only [refreshToken, ht', verifyRefreshToken]
        rw [hnone]
        simp [authError]

/-- Witness for C1: after a concrete successful refresh, replaying the same
token is rejected with 401. -/
theorem c1_refresh_rotation_witness :
    (refreshToken ((refreshToken [sampleUser] (some (Data.jwtRefresh 1 5)) none 9).db)
      (some (Data.jwtRefresh 1 5)) none 10).status = 401 := by
  obtain ⟨uid, j, -, -, -, -, -, h5⟩ :=
    c1_refresh_rotation [sampleUser] (some (Data.jwtRefresh 1 5)) none 9
      (Data.jwtRefresh 1 5) rfl (by decide)
      (by
        intro uid j h hj
        injection h with h1 h2
        omega)
  exact h5 (some (Data.jwtRefresh 1 5)) none 10 rfl

theorem storedHashed_saveUser {db : List UserDoc} {v : UserDoc}
    (hs : storedHashed db)
    (hv : ∀ d, v.refreshToken = some d → ∃ x, d = Data.sha256 x) :
    storedHashed (saveUser db v) := by
  intro u hu d hd
  rcases mem_saveUser_cases hu with rfl | ⟨hudb, -⟩
  · exact hv d hd
  · exact hs u hudb d hd

theorem storedHashed_append_single {db : List UserDoc} {v : UserDoc}
    (hs : storedHashed db)
    (hv : ∀ d, v.refreshToken = some d → ∃ x, d = Data.sha256 x) :
    storedHashed (db ++ [v]) := by
  intro u hu d hd
  rcases List.mem_append.mp hu with h | h
  · exact hs u h d hd
  · rw [List.mem_singleton] at h
    subst h
    exact hv d hd

/-- Case analysis of `signup`: either a 400 error leaving the database
unchanged, or a 201 success that inserts the user and stores the hash of
the refresh token sent in the httpOnly cookie. -/
theorem signup_outcome (db : List UserDoc) (name email password : String)
    (newId iat : Nat) :
    ((signup db name email password newId iat).status = 400 ∧
      (signup db name email password newId iat).db = db) ∨
    ((signup db name email password newId iat).status = 201 ∧
      (signup db name email password newId iat).refreshCookie =
        some { value := some (Data.jwtRefresh newId iat), httpOnly := true } ∧
      (signup db name email password newId iat).db =
        saveUser (db ++ [{ id := newId, name := name, email := email,
                           password := Data.bcrypt password,
                           resetPasswordToken := none, resetPasswordExpire := none,
                           refreshToken := none }])
          { id := newId, name := name, email := email,
            password := Data.bcrypt password,
            resetPasswordToken := none, resetPasswordExpire := none,
            refreshToken := some (hashToken (Data.jwtRefresh newId iat)) }) := by
  by_cases h1 : name = "" ∨ email = "" ∨ password = ""
  · exact Or.inl (by simp [signup, h1, authError])
  · cases hfe : db.find? (fun u => decide (u.email = email)) with
    | some w => exact Or.inl (by simp [signup, h1, hfe, authError])
    | none =>
      by_cases hlen : password.length < 8
      · exact Or.inl (by simp [signup, h1, hfe, hlen, authError])
      · refine Or.inr ⟨?_, ?_, ?_⟩
        · simp [signup, h1, hfe, hlen]
        · simp [signup, h1, hfe, hlen, generateTokens, generateAccessToken,
            generateRefreshToken, setAuthCookies]
        · simp [signup, h1, hfe, hlen, generateTokens, generateAccessToken,
            generateRefreshToken, setAuthCookies]

/-- Case analysis of `login`: either an error leaving the database
unchanged, or a 200 success that rotates the stored hash of the found
user. -/
theorem login_outcome (db : List UserDoc) (email password : String) (iat : Nat) :
    ((login db email password iat).status ≠ 200 ∧
      (login db email password iat).db = db) ∨
    ((login db email password iat).status = 200 ∧
      ∃ u ∈ db, (login db email password iat).refreshCookie =
          some { value := some (Data.jwtRefresh u.id iat), httpOnly := true } ∧
        (login db email password iat).db =
          saveUser db { u with
            refreshToken := some (hashToken (Data.jwtRefresh u.id iat)) }) := by
  by_cases h1 : email = "" ∨ password = ""
  · exact Or.inl (by simp [login, h1, authError])
  · cases hfe : db.find? (fun u => decide (u.email = email)) with
    | none => exact Or.inl (by simp [login, h1, hfe, authError])
    | some u =>
      by_cases hcp : comparePassword u password
      · refine Or.inr ⟨?_, u, List.mem_of_find?_eq_some hfe, ?_, ?_⟩
        · simp [login, h1, hfe, hcp]
        · simp [login, h1, hfe, hcp, generateTokens, generateAccessToken,
            generateRefreshToken, setAuthCookies]
        · simp [login, h1, hfe, hcp, generateTokens, generateAccessToken,
            generateRefreshToken, setAuthCookies]
      · exact Or.inl (by simp [login, h1, hfe, hcp, authError])

/-- Case analysis of `refreshToken`: either a 401 error leaving the
database unchanged, or a 200 success that rotates the stored hash of the
found user. -/
theorem refreshToken_outcome (db : List UserDoc) (ct bt : Option Data) (iat : Nat) :
    ((refreshToken db ct bt iat).status = 401 ∧
      (refreshToken db ct bt iat).db = db) ∨
    ((refreshToken db ct bt iat).status = 200 ∧
      ∃ u ∈ db, (refreshToken db ct bt iat).refreshCookie =
          some { value := some (Data.jwtRefresh u.id iat), httpOnly := true } ∧
        (refreshToken db ct bt iat).db =
          saveUser db { u with
            refreshToken := some (hashToken (Data.jwtRefresh u.id iat)) }) := by
  cases hct : ct <|> bt with
  | none => exact Or.inl (by simp [refreshToken, hct, authError])
  | some t =>
    cases t with
    | str s => exact Or.inl (by simp [refreshToken, hct, verifyRefreshToken, authError])
    | jwtAccess a b =>
      exact Or.inl (by simp [refreshToken, hct, verifyRefreshToken, authError])
    | sha256 d => exact Or.inl (by simp [refreshToken, hct, verifyRefreshToken, authError])
    | bcrypt pw => exact Or.inl (by simp [refreshToken, hct, verifyRefreshToken, authError])
    | jwtRefresh uid j =>
      cases hf : db.find? (fun u =>
          decide (u.id = uid ∧ u.refreshToken = some (hashToken (Data.jwtRefresh uid j)))) with
      | none =>
        refine Or.inl ⟨?_, ?_⟩ <;>
          · simp only [refreshToken, hct, verifyRefreshToken]
            rw [hf]
            simp [authError]
      | some user =>
        refine Or.inr ⟨?_, user, List.mem_of_find?_eq_some hf, ?_, ?_⟩
        · simp only [refreshToken, hct, verifyRefreshToken]
          rw [hf]
        · simp only [refreshToken, hct, verifyRefreshToken]
          rw [hf]
          simp [generateTokens, generateAccessToken, generateRefreshToken,
            setAuthCookies]
        · simp only [refreshToken, hct, verifyRefreshToken]
          rw [hf]
          simp [generateTokens, generateAccessToken, generateRefreshToken,
            setAuthCookies]

/-- Case analysis of `changePassword`: either an error leaving the database
unchanged, or a 200 success that stores the new password hash and clears
the stored refresh token hash of the authenticated user. -/
theorem changePassword_outcome (db : List UserDoc) (userId : Nat)
    (cur npw : String) :
    ((changePassword db userId cur npw).status ≠ 200 ∧
      (changePassword db userId cur npw).db = db) ∨
    ((changePassword db userId cur npw).status = 200 ∧
      ∃ u ∈ db, u.id = userId ∧
        (changePassword db userId cur npw).db =
          saveUser db { u with password := Data.bcrypt npw, refreshToken := none }) := by
  by_cases h1 : cur = "" ∨ npw = ""
  · exact Or.inl (by simp [changePassword, h1, authError])
  · by_cases hlen : npw.length < 8
    · exact Or.inl (by simp [changePassword, h1, hlen, authError])
    · cases hf : db.find? (fun u => decide (u.id = userId)) with
      | none => exact Or.inl (by simp [changePassword, h1, hlen, hf, authError])
      | some u =>
        by_cases hcp : comparePassword u cur
        · refine Or.inr ⟨?_, u, List.mem_of_find?_eq_some hf,
            by simpa using List.find?_some hf, ?_⟩
          · simp [changePassword, h1, hlen, hf, hcp]
          · simp [changePassword, h1, hlen, hf, hcp]
        · exact Or.inl (by simp [changePassword, h1, hlen, hf, hcp, authError])

/-- Case analysis of `resetPassword`: every failure answers 400 and leaves
the database unchanged, and a failure happens exactly when the provided
token is empty, the passwords mismatch or are short, or no user carries a
matching unexpired reset token hash; success stores the new password hash
and clears the reset fields and the stored refresh token hash. -/
theorem resetPassword_outcome (db : List UserDoc) (tok npw cpw : String)
    (now : Nat) :
    ((resetPassword db tok npw cpw now).status = 400 ∧
      (resetPassword db tok npw cpw now).db = db ∧
      ¬(tok ≠ "" ∧ npw = cpw ∧ 8 ≤ npw.length ∧
        ∃ u ∈ db, resetSelector (Data.sha256 (Data.str tok)) now u = true)) ∨
    ((resetPassword db tok npw cpw now).status = 200 ∧
      npw = cpw ∧ 8 ≤ npw.length ∧
      ∃ u ∈ db, resetSelector (Data.sha256 (Data.str tok)) now u = true ∧
        (resetPassword db tok npw cpw now).db =
          saveUser db { u with
                        password := Data.bcrypt npw,
                        resetPasswordToken := none,
                        resetPasswordExpire := none,
                        refreshToken := none }) := by
  by_cases h1 : tok = "" ∨ npw = "" ∨ cpw = ""
  · refine Or.inl ⟨by simp [resetPassword, h1, authError],
      by simp [resetPassword, h1, authError], ?_⟩
    rintro ⟨htok, heq, hlen, -⟩
    rcases h1 with h | h | h
    · exact htok h
    · rw [h] at hlen
      simp at hlen
    · rw [← heq] at h
      rw [h] at hlen
      simp at hlen
  · by_cases h2 : npw ≠ cpw
    · refine Or.inl ⟨by simp [resetPassword, h1, h2, authError],
        by simp [resetPassword, h1, h2, authError], ?_⟩
      rintro ⟨-, heq, -, -⟩
      exact h2 heq
    · by_cases h3 : npw.length < 8
      · refine Or.inl ⟨by simp [resetPassword, h1, h2, h3, authError],
          by simp [resetPassword, h1, h2, h3, authError], ?_⟩
        rintro ⟨-, -, hlen, -⟩
        omega
      · cases hf : db.find? (resetSelector (Data.sha256 (Data.str tok)) now) with
        | none =>
          refine Or.inl ⟨by simp [resetPassword, h1, h2, h3, hf, authError],
            by simp [resetPassword, h1, h2, h3, hf, authError], ?_⟩
          rintro ⟨-, -, -, u, hu, hsel⟩
          rw [List.find?_eq_none] at hf
          exact hf u hu hsel
        | some u =>
          refine Or.inr ⟨by simp [resetPassword, h1, h2, h3, hf],
            by simpa using h2, by omega, u, List.mem_of_find?_eq_some hf,
            List.find?_some hf, ?_⟩
          simp [resetPassword, h1, h2, h3, hf]

/-- Claim C2: signup, login and refresh store only the SHA-256 hash of the
refresh token they send in the httpOnly cookie, and every auth operation
preserves the invariant that the database holds no plaintext refresh
token. -/
theorem c2_refresh_token_hashed_at_rest (db : List UserDoc)
    (name email password : String) (newId iat : Nat) (ct bt : Option Data)
    (userId : Nat) (cur npw tok cpw : String) (now : Nat) :
    ((signup db name email password newId iat).status = 201 →
      ∃ rt, (signup db name email password newId iat).refreshCookie =
          some { value := some rt, httpOnly := true } ∧
        ∀ u ∈ (signup db name email password newId iat).db,
          u ∈ db ∨ u.refreshToken = some (hashToken rt)) ∧
    ((login db email password iat).status = 200 →
      ∃ rt, (login db email password iat).refreshCookie =
          some { value := some rt, httpOnly := true } ∧
        ∀ u ∈ (login db email password iat).db,
          u ∈ db ∨ u.refreshToken = some (hashToken rt)) ∧
    ((refreshToken db ct bt iat).status = 200 →
      ∃ rt, (refreshToken db ct bt iat).refreshCookie =
          some { value := some rt, httpOnly := true } ∧
        ∀ u ∈ (refreshToken db ct bt iat).db,
          u ∈ db ∨ u.refreshToken = some (hashToken rt)) ∧
    (storedHashed db → storedHashed (signup db name email password newId iat).db) ∧
    (storedHashed db → storedHashed (login db email password iat).db) ∧
    (storedHashed db → storedHashed (refreshToken db ct bt iat).db) ∧
    (storedHashed db → storedHashed (logout db userId).db) ∧
    (storedHashed db → storedHashed (changePassword db userId cur npw).db) ∧
    (storedHashed db → storedHashed (resetPassword db tok npw cpw now).db) := by
  refine ⟨?_, ?_, ?_, ?_, ?_, ?_, ?_, ?_, ?_⟩
  · intro h201
    rcases signup_outcome db name email password newId iat with ⟨h, -⟩ | ⟨-, hck, hdb⟩
    · rw [h201] at h
      cases h
    · refine ⟨Data.jwtRefresh newId iat, hck, ?_⟩
      rw [hdb]
      intro u hu
      rcases mem_saveUser_cases hu with rfl | ⟨hmem, hneid⟩
      · exact Or.inr rfl
      · rcases List.mem_append.mp hmem with h | h
        · exact Or.inl h
        · rw [List.mem_singleton] at h
          subst h
          exact absurd rfl hneid
  · intro h200
    rcases login_outcome db email password iat with ⟨h, -⟩ | ⟨-, u, hu, hck, hdb⟩
    · exact absurd h200 h
    · refine ⟨Data.jwtRefresh u.id iat, hck, ?_⟩
      rw [hdb]
      intro v hv
      rcases mem_saveUser_cases hv with rfl | ⟨hmem, -⟩
      · exact Or.inr rfl
      · exact Or.inl hmem
  · intro h200
    rcases refreshToken_outcome db ct bt iat with ⟨h, -⟩ | ⟨-, u, hu, hck, hdb⟩
    · rw [h200] at h
      cases h
    · refine ⟨Data.jwtRefresh u.id iat, hck, ?_⟩
      rw [hdb]
      intro v hv
      rcases mem_saveUser_cases hv with rfl | ⟨hmem, -⟩
      · exact Or.inr rfl
      · exact Or.inl hmem
  · intro hs
    rcases signup_outcome db name email password newId iat with ⟨-, hdb⟩ | ⟨-, -, hdb⟩
    · rw [hdb]
      exact hs
    · rw [hdb]
      refine storedHashed_saveUser (storedHashed_append_single hs ?_) ?_
      · intro d hd
        cases hd
      · intro d hd
        exact ⟨Data.jwtRefresh newId iat, (Option.some_inj.mp hd).symm⟩
  · intro hs
    rcases login_outcome db email password iat with ⟨-, hdb⟩ | ⟨-, u, -, -, hdb⟩
    · rw [hdb]
      exact hs
    · rw [hdb]
      exact storedHashed_saveUser hs
        (fun d hd => ⟨Data.jwtRefresh u.id iat, (Option.some_inj.mp hd).symm⟩)
  · intro hs
    rcases refreshToken_outcome db ct bt iat with ⟨-, hdb⟩ | ⟨-, u, -, -, hdb⟩
    · rw [hdb]
      exact hs
    · rw [hdb]
      exact storedHashed_saveUser hs
        (fun d hd => ⟨Data.jwtRefresh u.id iat, (Option.some_inj.mp hd).symm⟩)
  · intro hs u hu d hd
    unfold logout at hu
    simp only at hu
    obtain ⟨v, hv, hgv⟩ := List.mem_map.mp hu
    by_cases hvid : v.id = userId
    · rw [if_pos hvid] at hgv
      rw [← hgv] at hd
      cases hd
    · rw [if_neg hvid] at hgv
      exact hs v hv d (hgv ▸ hd)
  · intro hs
    rcases changePassword_outcome db userId cur npw with ⟨-, hdb⟩ | ⟨-, u, -, -, hdb⟩
    · rw [hdb]
      exact hs
    · rw [hdb]
      exact storedHashed_saveUser hs (fun d hd => by simp at hd)
  · intro hs
    rcases resetPassword_outcome db tok npw cpw now with ⟨-, hdb, -⟩ |
      ⟨-, -, -, u, -, -, hdb⟩
    · rw [hdb]
      exact hs
    · rw [hdb]
      exact storedHashed_saveUser hs (fun d hd => by simp at hd)

/-- Witness for C2 at a concrete successful login. -/
theorem c2_refresh_token_hashed_at_rest_witness :
    storedHashed (login [sampleUser] "ada@example.com" "password1" 3).db := by
  have h := (c2_refresh_token_hashed_at_rest [sampleUser] "Ada" "ada@example.com"
    "password1" 2 3 none none 1 "password1" "newpassword" "123456" "newpassword" 0).2.2.2.2.1
  refine h ?_
  intro u hu d hd
  rw [List.mem_singleton] at hu
  subst hu
  exact ⟨Data.jwtRefresh 1 5, Option.some_inj.mp hd.symm⟩

theorem resetSelector_iff (hashed : Data) (now : Nat) (u : UserDoc) :
    resetSelector hashed now u = true ↔
      (u.resetPasswordToken = some hashed ∧
        ∃ e, u.resetPasswordExpire = some e ∧ now < e) := by
  unfold resetSelector
  cases he : u.resetPasswordExpire with
  | none => simp [he]
  | some e => simp [he, Bool.and_eq_true, decide_eq_true_eq]

/-- Claim C4: POST /api/auth/reset-password succeeds exactly when some user
carries the SHA-256 hash of the provided token with an unexpired
`resetPasswordExpire` and the two provided passwords match with length at
least 8; every failure answers 400 with the database unchanged; success
clears the reset token fields (and the stored refresh token hash). -/
theorem c4_reset_password_atomic (db : List UserDoc)
    (token newPassword confirmPassword : String) (now : Nat)
    (htok : token ≠ "") :
    ((resetPassword db token newPassword confirmPassword now).status = 200 ↔
      ((∃ u ∈ db, u.resetPasswordToken = some (Data.sha256 (Data.str token)) ∧
          ∃ e, u.resetPasswordExpire = some e ∧ now < e) ∧
        newPassword = confirmPassword ∧ 8 ≤ newPassword.length)) ∧
    ((resetPassword db token newPassword confirmPassword now).status ≠ 200 →
      (resetPassword db token newPassword confirmPassword now).status = 400 ∧
      (resetPassword db token newPassword confirmPassword now).db = db) ∧
    ((resetPassword db token newPassword confirmPassword now).status = 200 →
      ∃ u ∈ db, (resetPassword db token newPassword confirmPassword now).db =
        saveUser db { u with
                      password := Data.bcrypt newPassword,
                      resetPasswordToken := none,
                      resetPasswordExpire := none,
                      refreshToken := none }) := by
  rcases resetPassword_outcome db token newPassword confirmPassword now with
    ⟨h400, hdb, hnot⟩ | ⟨h200, heq, hlen, u, hu, hsel, hdb⟩
  · refine ⟨⟨fun h => ?_, fun h => ?_⟩, fun _ => ⟨h400, hdb⟩, fun h => ?_⟩
    · rw [h400] at h
      cases h
    · obtain ⟨⟨u, hu, hmatch⟩, heq, hlen⟩ := h
      exact absurd ⟨htok, heq, hlen, u, hu, (resetSelector_iff _ _ _).mpr hmatch⟩ hnot
    · rw [h400] at h
      cases h
  · exact ⟨⟨fun _ => ⟨⟨u, hu, (resetSelector_iff _ _ _).mp hsel⟩, heq, hlen⟩,
      fun _ => h200⟩, fun hne => absurd h200 hne, fun _ => ⟨u, hu, hdb⟩⟩

/-- Witness for C4: a concrete matching reset token resets the password. -/
theorem c4_reset_password_atomic_witness :
    (resetPassword [sampleUser] "123456" "newpassword" "newpassword" 0).status = 200 :=
  (c4_reset_password_atomic [sampleUser] "123456" "newpassword" "newpassword" 0
    (by decide)).1.mpr
    ⟨⟨sampleUser, by decide, by decide, 1000, by decide, by decide⟩, rfl, by decide⟩

theorem refresh_rejected_of_cleared (db : List UserDoc) (uid : Nat)
    (hclear : ∀ u ∈ db, u.id = uid → u.refreshToken = none) :
    ∀ (t : Data) (ct bt : Option Data) (iat : Nat),
      verifyRefreshToken t = some uid → (ct <|> bt) = some t →
      (refreshToken db ct bt iat).status = 401 := by
  intro t ct bt iat hv ht
  cases t with
  | str s => simp [verifyRefreshToken] at hv
  | jwtAccess a b => simp [verifyRefreshToken] at hv
  | sha256 d => simp [verifyRefreshToken] at hv
  | bcrypt pw => simp [verifyRefreshToken] at hv
  | jwtRefresh uid' j =>
    have huid : uid' = uid := by simpa [verifyRefreshToken] using hv
    subst huid
    have hnone : db.find? (fun u => decide (u.id = uid' ∧
        u.refreshToken = some (hashToken (Data.jwtRefresh uid' j)))) = none := by
      rw [List.find?_eq_none]
      intro x hx hpx
      rw [decide_eq_true_eq] at hpx
      obtain ⟨hxid, hxrt⟩ := hpx
      rw [hclear x hx hxid] at hxrt
      cases hxrt
    simp only [refreshToken, ht, verifyRefreshToken]
    rw [hnone]
    simp [authError]

/-- Claim C10: after a successful change-password or reset-password, the
stored refresh token of the affected user is cleared, so every refresh with
a token of that user is rejected with 401. -/
theorem c10_password_change_clears_sessions (db : List UserDoc)
    (userId : Nat) (cur npw tok cpw : String) (now : Nat) :
    ((changePassword db userId cur npw).status = 200 →
      (∀ u ∈ (changePassword db userId cur npw).db, u.id = userId →
        u.refreshToken = none) ∧
      (∀ (t : Data) (ct bt : Option Data) (iat : Nat),
        verifyRefreshToken t = some userId → (ct <|> bt) = some t →
        (refreshToken (changePassword db userId cur npw).db ct bt iat).status = 401)) ∧
    ((resetPassword db tok npw cpw now).status = 200 →
      ∃ u₀ ∈ db, resetSelector (Data.sha256 (Data.str tok)) now u₀ = true ∧
        (∀ u ∈ (resetPassword db tok npw cpw now).db, u.id = u₀.id →
          u.refreshToken = none) ∧
        (∀ (t : Data) (ct bt : Option Data) (iat : Nat),
          verifyRefreshToken t = some u₀.id → (ct <|> bt) = some t →
          (refreshToken (resetPassword db tok npw cpw now).db ct bt iat).status = 401)) := by
  constructor
  · intro h200
    rcases changePassword_outcome db userId cur npw with ⟨hne, -⟩ | ⟨-, u, hu, huid, hdb⟩
    · exact absurd h200 hne
    · have hclear : ∀ w ∈ (changePassword db userId cur npw).db, w.id = userId →
          w.refreshToken = none := by
        rw [hdb]
        intro w hw hwid
        rcases mem_saveUser_cases hw with rfl | ⟨-, hne⟩
        · rfl
        · exact absurd (hwid.trans huid.symm) hne
      exact ⟨hclear, refresh_rejected_of_cleared _ userId hclear⟩
  · intro h200
    rcases resetPassword_outcome db tok npw cpw now with ⟨h400, -, -⟩ |
      ⟨-, -, -, u, hu, hsel, hdb⟩
    · rw [h200] at h400
      cases h400
    · have hclear : ∀ w ∈ (resetPassword db tok npw cpw now).db, w.id = u.id →
          w.refreshToken = none := by
        rw [hdb]
        intro w hw hwid
        rcases mem_saveUser_cases hw with rfl | ⟨-, hne⟩
        · rfl
        · exact absurd hwid hne
      exact ⟨u, hu, hsel, hclear, refresh_rejected_of_cleared _ u.id hclear⟩

/-- Witness for C10: after a concrete password change, an old refresh token
is rejected. -/
theorem c10_password_change_clears_sessions_witness :
    (refreshToken (changePassword [sampleUser] 1 "password1" "newpassword").db
      (some (Data.jwtRefresh 1 5)) none 9).status = 401 :=
  ((c10_password_change_clears_sessions [sampleUser] 1 "password1" "newpassword"
    "123456" "x" 0).1 (by decide)).2 (Data.jwtRefresh 1 5)
    (some (Data.jwtRefresh 1 5)) none 9 rfl rfl

theorem toDigitsCore_lt_pow_length (f : Nat) : ∀ n, n < f →
    n < 10 ^ (Nat.toDigitsCore 10 f n []).length := by
  induction f with
  | zero =>
    intro n hn
    omega
  | succ f ih =>
    intro n hn
    by_cases hd : n / 10 = 0
    · have h10 : n < 10 := by omega
      simp only [Nat.toDigitsCore, hd, if_pos]
      simpa using h10
    · have hrec : (Nat.toDigitsCore 10 (f + 1) n []).length =
          (Nat.toDigitsCore 10 f (n / 10) []).length + 1 := by
        simp only [Nat.toDigitsCore, hd, if_neg]
        exact Nat.toDigitsCore_lens_eq 10 f (n / 10) (Nat.digitChar (n % 10)) []
      rw [hrec]
      have hn' : n / 10 < f := by omega
      have ihh := ih (n / 10) hn'
      rw [pow_succ]
      omega

theorem lt_pow_repr_length (n : Nat) : n < 10 ^ (Nat.repr n).length := by
  show n < 10 ^ ((Nat.toDigits 10 n).asString).length
  have hlen : ((Nat.toDigits 10 n).asString).length = (Nat.toDigits 10 n).length := rfl
  rw [hlen]
  unfold Nat.toDigits
  exact toDigitsCore_lt_pow_length (n + 1) n (by omega)

theorem repr_length_six {n : Nat} (h1 : 100000 ≤ n) (h2 : n ≤ 999999) :
    (Nat.repr n).length = 6 := by
  have hub : (Nat.repr n).length ≤ 6 := Nat.repr_length n 6 (by norm_num) (by omega)
  have hlb := lt_pow_repr_length n
  by_contra hne
  have hlt : (Nat.repr n).length ≤ 5 := by omega
  have hmono : (10 : Nat) ^ (Nat.repr n).length ≤ 10 ^ 5 :=
    Nat.pow_le_pow_right (by norm_num) hlt
  norm_num at hmono
  omega

theorem resetCodeOfRand_range (r : ℚ) (h0 : 0 ≤ r) (h1 : r < 1) :
    100000 ≤ resetCodeOfRand r ∧ resetCodeOfRand r ≤ 999999 := by
  unfold resetCodeOfRand
  have hlb : (100000 : ℤ) ≤ Int.floor ((100000 : ℚ) + r * 900000) := by
    rw [Int.le_floor]
    push_cast
    nlinarith
  have hub : Int.floor ((100000 : ℚ) + r * 900000) < 1000000 := by
    rw [Int.floor_lt]
    push_cast
    nlinarith
  omega

/-- Claim C3: `getResetPasswordToken` returns a 6-digit decimal code in the
range 100000 to 999999, stores exactly its SHA-256 digest (never the
plaintext), and sets the expiry to the current time plus 10 minutes. -/
theorem c3_reset_token_generation (u : UserDoc) (r : ℚ) (now : Nat)
    (h0 : 0 ≤ r) (h1 : r < 1) :
    ∃ n : Nat, (getResetPasswordToken u r now).1 = toString n ∧
      100000 ≤ n ∧ n ≤ 999999 ∧
      ((getResetPasswordToken u r now).1).length = 6 ∧
      (getResetPasswordToken u r now).2.resetPasswordToken =
        some (Data.sha256 (Data.str (getResetPasswordToken u r now).1)) ∧
      (∀ s, (getResetPasswordToken u r now).2.resetPasswordToken ≠
        some (Data.str s)) ∧
      (getResetPasswordToken u r now).2.resetPasswordExpire =
        some (now + 10 * 60 * 1000) := by
  obtain ⟨hlo, hhi⟩ := resetCodeOfRand_range r h0 h1
  refine ⟨resetCodeOfRand r, rfl, hlo, hhi, ?_, rfl, ?_, rfl⟩
  · exact repr_length_six hlo hhi
  · intro s h
    simp [getResetPasswordToken] at h

/-- Witness for C3 at the concrete random draw one half. -/
theorem c3_reset_token_generation_witness :
    ∃ n : Nat, (getResetPasswordToken sampleUser (1 / 2) 17).1 = toString n ∧
      100000 ≤ n ∧ n ≤ 999999 ∧
      ((getResetPasswordToken sampleUser (1 / 2) 17).1).length = 6 ∧
      (getResetPasswordToken sampleUser (1 / 2) 17).2.resetPasswordToken =
        some (Data.sha256 (Data.str (getResetPasswordToken sampleUser (1 / 2) 17).1)) ∧
      (∀ s, (getResetPasswordToken sampleUser (1 / 2) 17).2.resetPasswordToken ≠
        some (Data.str s)) ∧
      (getResetPasswordToken sampleUser (1 / 2) 17).2.resetPasswordExpire =
        some (17 + 10 * 60 * 1000) :=
  c3_reset_token_generation sampleUser (1 / 2) 17 (by norm_num) (by norm_num)

end NotesApp
